import Mathlib

/-!
Verification of the mgm-streamlit-host analytics pipeline.

The repository consists of seven Streamlit pages that each run one warehouse
query and then push the rows through the same pure pipeline:
normalize (`get_dataframe`) → derive columns (season, year-season, yielding)
→ filter by user selections → group and aggregate → sort and shape.
This file gives a shallow embedding of those pure stages.  Pandas data frames
are embedded as `List RawRecord`; nullable columns are `Option` fields; float
division by zero is modelled by the `PFloat` type with explicit `nan` and
infinity values, matching numpy semantics.  Column renaming
(`snow_df.rename(columns=...)`) only changes labels, never values, so the
embedding uses one record type with the warehouse field names throughout.
-/

namespace Mgm

/-- A calendar date as stored in the warehouse date columns. -/
structure DateV where
  year : Int
  month : Nat
  day : Nat
deriving DecidableEq, Repr

/-- Lexicographic order on calendar dates, as used by the
`df["Event Date"] >= start` style timestamp comparisons. -/
def DateV.leb (a b : DateV) : Bool :=
  (a.year < b.year) ||
  (a.year = b.year && a.month < b.month) ||
  (a.year = b.year && a.month = b.month && a.day ≤ b.day)

/-- One raw warehouse row of the `MGM_TRANSACTIONS` /
`MGM_UVE_PAY_GXN_ALL_TRANSACTIONS` tables, before column renaming.
Nullable columns are `Option`. -/
structure RawRecord where
  vpVenueName : Option String
  vtName : Option String
  tbGlobalType : Option String
  efName : Option String
  tiItemName : Option String
  tbQty : ℚ
  stock : ℚ
  tbSubtotalAgree : ℚ
  tbGuests : ℚ
  tbCartId : String
  tiCalDate : Option DateV
  tbTransDate : Option DateV
  addtierYieldAllItems : Option ℚ
  tierTierAllItems : Option ℚ
deriving DecidableEq, Repr

/-! ### Exact duplicate removal

`snow_df.drop_duplicates()` keeps the first occurrence of every distinct row.
`dropDupAux seen l` keeps the elements of `l` not already seen. -/

def dropDupAux [DecidableEq α] (seen : List α) : List α → List α
  | [] => []
  | a :: l => if a ∈ seen then dropDupAux seen l else a :: dropDupAux (a :: seen) l

/-- `drop_duplicates`: keep the first occurrence of each distinct element. -/
def dropDuplicates [DecidableEq α] (l : List α) : List α :=
  dropDupAux [] l

/-! ### Record Normalizer (`get_dataframe` preprocessing, identical in all pages)

```
snow_df = snow_df.drop_duplicates()
snow_df = snow_df.dropna(subset=['TI_CALDATE', 'TB_TRANSDATE'])
snow_df['EF_NAME'] = snow_df['EF_NAME'].fillna('Unknown')
... (TI_ITEMNAME, TB_GLOBALTYPE, VT_NAME, VP_VENUENAME) ...
snow_df.rename(columns={...}, inplace=True)
```
The rename step relabels columns without touching values, so it is the
identity in this value-level embedding. -/

/-- `.fillna('Unknown')` on one nullable string cell. -/
def fillUnknown (o : Option String) : Option String :=
  match o with
  | none => some "Unknown"
  | some v => some v

/-- The five `fillna('Unknown')` assignments of `get_dataframe`. -/
def applyFillna (r : RawRecord) : RawRecord :=
  { r with
    efName := fillUnknown r.efName
    tiItemName := fillUnknown r.tiItemName
    tbGlobalType := fillUnknown r.tbGlobalType
    vtName := fillUnknown r.vtName
    vpVenueName := fillUnknown r.vpVenueName }

/-- `dropna(subset=['TI_CALDATE', 'TB_TRANSDATE'])` row predicate. -/
def hasDates (r : RawRecord) : Bool :=
  r.tiCalDate.isSome && r.tbTransDate.isSome

/-- The preprocessing body of `get_dataframe`, shared verbatim by every page:
dedup, drop rows with a null date, substitute `"Unknown"` for the five
nullable categorical columns. -/
def getDataframe (rows : List RawRecord) : List RawRecord :=
  ((dropDuplicates rows).filter hasDates).map applyFillna

/-! ### Derived Field Calculator -/

/-- `get_season` from `3 Seasonal Analysis.py`, `3 Seasonal Grouping Analysis.py`
and `4 DayOfTheWeek Analysis.py`:

```
def get_season(date):
    if date.month in [12, 1, 2]: return 'Winter'
    elif date.month in [3, 4, 5]: return 'Spring'
    elif date.month in [6, 7, 8]: return 'Summer'
    elif date.month in [9, 10, 11]: return 'Fall'
```
A month outside 1..12 falls through every branch and yields Python `None`,
embedded as `none`. -/
def getSeason (month : Nat) : Option String :=
  if month = 12 ∨ month = 1 ∨ month = 2 then some "Winter"
  else if month = 3 ∨ month = 4 ∨ month = 5 then some "Spring"
  else if month = 6 ∨ month = 7 ∨ month = 8 then some "Summer"
  else if month = 9 ∨ month = 10 ∨ month = 11 then some "Fall"
  else none

/-- `df['Season'] = df['Event Date'].apply(get_season)` on one record. -/
def seasonColumn (r : RawRecord) : Option String :=
  match r.tiCalDate with
  | some d => getSeason d.month
  | none => none

/-- `df['Year'] = df['Event Date'].dt.year.fillna(0).astype(int)` on one record. -/
def yearColumn (r : RawRecord) : Int :=
  match r.tiCalDate with
  | some d => d.year
  | none => 0

/-- `df['YearSeason'] = df['Year'].astype(str) + ' ' + df['Season']`.
String concatenation with a pandas missing value is itself missing; the
missing branch is unreachable because `get_season` covers months 1..12. -/
def yearSeasonColumn (r : RawRecord) : String :=
  match seasonColumn r with
  | some s => toString (yearColumn r) ++ " " ++ s
  | none => ""

/-- Zero padded month for the `to_period('M')` label. -/
def pad2 (n : Nat) : String :=
  if n < 10 then "0" ++ toString n else toString n

/-- `df['YearMonth'] = df['Event Date'].dt.to_period('M').astype(str)`,
a `"{year}-{month}"` label; a missing event date renders as `"NaT"`. -/
def yearMonthColumn (r : RawRecord) : String :=
  match r.tiCalDate with
  | some d => toString d.year ++ "-" ++ pad2 d.month
  | none => "NaT"

/-- One yield indicator test, `pd.notnull(x[c]) and x[c] > 0`. -/
def posIndicator (o : Option ℚ) : Bool :=
  match o with
  | some v => decide (0 < v)
  | none => false

/-- The `yielding` column of `2 Transaction Pool Yield Analysis.py` line 92:

```
df['yielding'] = df.apply(lambda x: 'yes' if
    (pd.notnull(x['ADDTIER_YIELD_ALLITEMS']) and x['ADDTIER_YIELD_ALLITEMS'] > 0)
    or (pd.notnull(x['TIER_TIER_ALLITEMS']) and x['TIER_TIER_ALLITEMS'] > 0)
    else 'no', axis=1)
``` -/
def yieldingFlag (r : RawRecord) : String :=
  if posIndicator r.addtierYieldAllItems || posIndicator r.tierTierAllItems
  then "yes" else "no"

/-! ### Float results of the percentage-sale division

Numpy float division of a nonzero numerator by zero yields a signed
infinity, and `0 / 0` yields `NaN`; `.round(2)` leaves both unchanged.
`PFloat` records those outcomes explicitly and keeps finite values exact
as rationals. -/

inductive PFloat where
  | nan : PFloat
  | infPos : PFloat
  | infNeg : PFloat
  | val : ℚ → PFloat
deriving DecidableEq, Repr, Inhabited

/-- Division of two pandas numeric columns, `a / b`, at one row. -/
def pandasDiv (a b : ℚ) : PFloat :=
  if b = 0 then
    if a = 0 then .nan else if 0 < a then .infPos else .infNeg
  else .val (a / b)

/-- Scalar multiplication `x * 100` on a possibly non-finite cell. -/
def pfMul100 (x : PFloat) : PFloat :=
  match x with
  | .val q => .val (q * 100)
  | other => other

/-- Round half to even on rationals, the rounding used by `Series.round`. -/
def roundHalfEven (x : ℚ) : Int :=
  let f : Int := ⌊x⌋
  let frac : ℚ := x - f
  if frac < 1/2 then f
  else if 1/2 < frac then f + 1
  else if f % 2 = 0 then f else f + 1

/-- `.round(2)`: round to two decimal places. -/
def round2 (x : ℚ) : ℚ :=
  (roundHalfEven (x * 100) : ℚ) / 100

/-- `.round(2)` on a possibly non-finite cell: `NaN` and infinities pass
through unchanged. -/
def pfRound2 (x : PFloat) : PFloat :=
  match x with
  | .val q => .val (round2 q)
  | other => other

/-! ### Grouping & Aggregation Engine

`df.groupby(cols).agg(...)` partitions the rows by the tuple of grouping
column values.  `groupRows` lists the distinct keys in order of first
occurrence and pairs each with the rows carrying it; pandas additionally
sorts the keys, which none of the stated claims depend on (sums, per-group
values and emptiness are invariant under group order, and row order of the
outputs is fixed by the explicit `sort_values` calls modelled separately).
Along the modelled pipeline every grouping column is non-null (the
normalizer invariant), so pandas' dropping of null group keys never
fires and is not modelled. -/

def groupRows [DecidableEq κ] (key : α → κ) (l : List α) : List (κ × List α) :=
  (dropDuplicates (l.map key)).map (fun k => (k, l.filter (fun r => key r = k)))

/-- Column sum over a group. -/
def sumBy (f : α → ℚ) (l : List α) : ℚ :=
  (l.map f).sum

/-- `pd.Series.nunique`: number of distinct values of a column. -/
def nuniqueBy [DecidableEq β] (f : α → β) (l : List α) : Nat :=
  (dropDuplicates (l.map f)).length

/-- `max` aggregation over a group (groups produced by `groupRows` are
nonempty, so the `[]` default is never consulted). -/
def listMax (l : List ℚ) : ℚ :=
  match l with
  | [] => 0
  | a :: t => t.foldl max a

/-! ### Filter Engine: `2 Transaction Pool Yield Analysis.py` lines 102-124

```
filtered_df = df[df["Venue Name"].isin(selected_vp_venuename)] if selected_vp_venuename else df
selected_ef_name ...: filtered_df = filtered_df[filtered_df["Event Name"].isin(...)]
selected_ti_itemname ...: filtered_df = filtered_df[filtered_df["Item Name"].isin(...)]
selected_yielding ...: filtered_df = filtered_df[filtered_df["yielding"].isin(...)]
if date_filter and len(date_filter) == 2: filtered_df = filtered_df[(date col >= start) & (date col <= end)]
``` -/

/-- `column.isin(sel)` at one cell: a missing value is in no selection. -/
def optIn (o : Option String) (sel : List String) : Bool :=
  match o with
  | some v => sel.contains v
  | none => false

/-- `(col >= start) & (col <= end)` at one cell; comparisons against a
missing timestamp are false. -/
def optInDateRange (o : Option DateV) (start stop : DateV) : Bool :=
  match o with
  | some d => DateV.leb start d && DateV.leb d stop
  | none => false

/-- The full filter pass of the Pool Yield page.  `useEventDate` is the
"Select Date Filter Type" radio; `dateFilter = none` models an empty
`st.date_input` selection, in which case no date filtering happens on
this page (it has no previous-month default). -/
def poolFiltered (df : List RawRecord) (selVN selEF selTI selYld : List String)
    (useEventDate : Bool) (dateFilter : Option (DateV × DateV)) : List RawRecord :=
  let f1 := if selVN ≠ [] then df.filter (fun r => optIn r.vpVenueName selVN) else df
  let f2 := if selEF ≠ [] then f1.filter (fun r => optIn r.efName selEF) else f1
  let f3 := if selTI ≠ [] then f2.filter (fun r => optIn r.tiItemName selTI) else f2
  let f4 := if selYld ≠ [] then f3.filter (fun r => (selYld.contains (yieldingFlag r))) else f3
  match dateFilter with
  | some (s, e) =>
      if useEventDate then f4.filter (fun r => optInDateRange r.tiCalDate s e)
      else f4.filter (fun r => optInDateRange r.tbTransDate s e)
  | none => f4

/-- Grouping key of the Pool Yield page, `['YearMonth']` plus one column per
non-empty selection (lines 127-135). -/
def poolYieldKey (selVN selEF selTI selYld : List String) (r : RawRecord) :
    List String :=
  [yearMonthColumn r]
  ++ (if selVN ≠ [] then [(r.vpVenueName).getD ""] else [])
  ++ (if selEF ≠ [] then [(r.efName).getD ""] else [])
  ++ (if selTI ≠ [] then [(r.tiItemName).getD ""] else [])
  ++ (if selYld ≠ [] then [yieldingFlag r] else [])

/-- One aggregated output row of the Pool Yield page (lines 138-146).
The `_avg` columns exist only when the "Show Average" box is checked. -/
structure PoolYieldRow where
  keyVals : List String
  valueSum : ℚ
  valueAvg : Option ℚ
  guestsSum : ℚ
  guestsAvg : Option ℚ
  quantitySum : ℚ
  quantityAvg : Option ℚ
  transactionCount : Nat
deriving DecidableEq, Repr

/-- `filtered_df.groupby(group_by_cols).agg({'Value': ..., 'Guests': ...,
'Quantity': ..., 'Cart ID': pd.Series.nunique})`. -/
def poolYieldGrouped (showAvg : Bool) (selVN selEF selTI selYld : List String)
    (l : List RawRecord) : List PoolYieldRow :=
  (groupRows (poolYieldKey selVN selEF selTI selYld) l).map (fun kg =>
    { keyVals := kg.1
      valueSum := sumBy (fun r => r.tbSubtotalAgree) kg.2
      valueAvg := if showAvg then some (sumBy (fun r => r.tbSubtotalAgree) kg.2 / kg.2.length) else none
      guestsSum := sumBy (fun r => r.tbGuests) kg.2
      guestsAvg := if showAvg then some (sumBy (fun r => r.tbGuests) kg.2 / kg.2.length) else none
      quantitySum := sumBy (fun r => r.tbQty) kg.2
      quantityAvg := if showAvg then some (sumBy (fun r => r.tbQty) kg.2 / kg.2.length) else none
      transactionCount := nuniqueBy (fun r => r.tbCartId) kg.2 })

/-- Terminal state of one page pass: either the explicit
`st.error("No data found to display.")` branch taken on
`df_grouped.empty` (lines 148-149), or the rendered grouped rows. -/
inductive PageOutcome where
  | noData : PageOutcome
  | rendered : List PoolYieldRow → PageOutcome
deriving DecidableEq, Repr

/-- The Pool Yield page pipeline pass after the cached fetch: filter, group,
branch on emptiness. -/
def poolYieldPage (showAvg : Bool) (selVN selEF selTI selYld : List String)
    (useEventDate : Bool) (dateFilter : Option (DateV × DateV))
    (df : List RawRecord) : PageOutcome :=
  let fd := poolFiltered df selVN selEF selTI selYld useEventDate dateFilter
  let g := poolYieldGrouped showAvg selVN selEF selTI selYld fd
  if g = [] then .noData else .rendered g

/-! ### `1 DailyInventory Analysis.py` grouping (lines 137-156)

```
group_by_cols = ['Date', 'Venue Name', 'Event Name', 'Item Name']  # or without Event Name
df_grouped = df.groupby(group_by_cols).agg({'Quantity': 'sum', 'Stock': 'max',
    'Value': 'sum', 'Guests': 'sum', 'Cart ID': pd.Series.nunique}).reset_index()
df_grouped['PERCENTAGE_SALE'] = (df_grouped['Quantity'] / df_grouped['Stock']) * 100
df_grouped['PERCENTAGE_SALE'] = df_grouped['PERCENTAGE_SALE'].round(2)
```
`df['Date']` is a copy of `Event Date`. -/

/-- Grouping key of the inventory page; `withEvent` is
`ef_name_filter != "All"`. -/
def dailyKey (withEvent : Bool) (r : RawRecord) : Option DateV × List String :=
  (r.tiCalDate,
    [(r.vpVenueName).getD ""]
    ++ (if withEvent then [(r.efName).getD ""] else [])
    ++ [(r.tiItemName).getD ""])

/-- One output row of the inventory page's grouped frame. -/
structure InventoryRow where
  date : Option DateV
  keyVals : List String
  quantitySum : ℚ
  stockMax : ℚ
  valueSum : ℚ
  guestsSum : ℚ
  transactionCount : Nat
  percentageSale : PFloat
deriving DecidableEq, Repr, Inhabited

/-- The inventory page aggregation with the `PERCENTAGE_SALE` column. -/
def dailyInventoryGrouped (withEvent : Bool) (l : List RawRecord) :
    List InventoryRow :=
  (groupRows (dailyKey withEvent) l).map (fun kg =>
    let qsum := sumBy (fun r => r.tbQty) kg.2
    let smax := listMax (kg.2.map (fun r => r.stock))
    { date := kg.1.1
      keyVals := kg.1.2
      quantitySum := qsum
      stockMax := smax
      valueSum := sumBy (fun r => r.tbSubtotalAgree) kg.2
      guestsSum := sumBy (fun r => r.tbGuests) kg.2
      transactionCount := nuniqueBy (fun r => r.tbCartId) kg.2
      percentageSale := pfRound2 (pfMul100 (pandasDiv qsum smax)) })

/-! ### Stable sorting (`sort_values`, Python `sorted`)

Both pandas `sort_values` on a single column and Python's `sorted` order
the result so that consecutive elements are related by the key order; the
stable insertion sort below realizes that. -/

def insertLe (le : α → α → Bool) (a : α) : List α → List α
  | [] => [a]
  | b :: t => if le a b then a :: b :: t else b :: insertLe le a t

def insertionSortLe (le : α → α → Bool) : List α → List α
  | [] => []
  | a :: t => insertLe le a (insertionSortLe le t)

/-! ### `3 Seasonal Grouping Analysis.py` aggregation and ordering

Grouping (lines 142-159): key `['YearSeason']` plus one column per
non-empty selection, aggregating Value/Guests/Quantity sums (means when
"Show Average" is on) and the distinct Cart ID count.  Ordering
(line 177): `df_grouped = df_grouped.sort_values(by="YearSeason")`, a sort
of the rows by the plain `"{year} {season}"` string. -/

def seasonalGroupKey (selVN selEF selTI : List String) (r : RawRecord) :
    List String :=
  [yearSeasonColumn r]
  ++ (if selVN ≠ [] then [(r.vpVenueName).getD ""] else [])
  ++ (if selEF ≠ [] then [(r.efName).getD ""] else [])
  ++ (if selTI ≠ [] then [(r.tiItemName).getD ""] else [])

/-- One aggregated row of the Seasonal Grouping page. -/
structure SGRow where
  yearSeason : String
  keyVals : List String
  valueSum : ℚ
  valueAvg : Option ℚ
  guestsSum : ℚ
  guestsAvg : Option ℚ
  quantitySum : ℚ
  quantityAvg : Option ℚ
  transactionCount : Nat
deriving DecidableEq, Repr

def seasonalGrouped (showAvg : Bool) (selVN selEF selTI : List String)
    (l : List RawRecord) : List SGRow :=
  (groupRows (seasonalGroupKey selVN selEF selTI) l).map (fun kg =>
    { yearSeason := kg.1.headD ""
      keyVals := kg.1.tail
      valueSum := sumBy (fun r => r.tbSubtotalAgree) kg.2
      valueAvg := if showAvg then some (sumBy (fun r => r.tbSubtotalAgree) kg.2 / kg.2.length) else none
      guestsSum := sumBy (fun r => r.tbGuests) kg.2
      guestsAvg := if showAvg then some (sumBy (fun r => r.tbGuests) kg.2 / kg.2.length) else none
      quantitySum := sumBy (fun r => r.tbQty) kg.2
      quantityAvg := if showAvg then some (sumBy (fun r => r.tbQty) kg.2 / kg.2.length) else none
      transactionCount := nuniqueBy (fun r => r.tbCartId) kg.2 })

/-- Lexicographic code-point order on character lists: a prefix compares
below any extension, otherwise the first differing code point decides. -/
def charsLeb : List Char → List Char → Bool
  | [], _ => true
  | _ :: _, [] => false
  | a :: as, b :: bs => if a.toNat = b.toNat then charsLeb as bs else a.toNat ≤ b.toNat

/-- String comparison used by `sort_values` on a string column and by
Python `<` on `str`: plain code-point lexicographic order. -/
def strLeb (a b : String) : Bool :=
  charsLeb a.data b.data

/-- `df_grouped.sort_values(by="YearSeason")` (line 177). -/
def sortValuesYearSeason (rows : List SGRow) : List SGRow :=
  insertionSortLe (fun a b => strLeb a.yearSeason b.yearSeason) rows

/-! ### `4 DayOfTheWeek Analysis.py` season enumeration (lines 189-190)

```
seasons_order = ['Spring', 'Summer', 'Fall', 'Winter']
sorted_seasons = sorted(df_grouped['YearSeason'].unique(),
    key=lambda x: (int(x.split()[0]), seasons_order.index(x.split()[1])))
``` -/

def seasonsOrder : List String := ["Spring", "Summer", "Fall", "Winter"]

/-- Python `str.split()`: cut a character list at space characters. -/
def splitSpace (cs : List Char) : List (List Char) :=
  match cs with
  | [] => [[]]
  | c :: t =>
    let r := splitSpace t
    if c = ' ' then [] :: r
    else
      match r with
      | [] => [[c]]
      | w :: ws => (c :: w) :: ws

/-- Decimal digits to a natural number. -/
def digitsToNat (cs : List Char) : Nat :=
  cs.foldl (fun acc c => acc * 10 + (c.toNat - 48)) 0

/-- Python `int()` on a (possibly sign-prefixed) decimal literal. -/
def parseInt (cs : List Char) : Int :=
  match cs with
  | '-' :: t => -(digitsToNat t : Int)
  | _ => (digitsToNat cs : Int)

/-- `seasons_order.index(s)`; `.index` raises on a value not in the list,
which cannot happen for labels produced by `get_season`, so the model
returns the list length there. -/
def seasonIndexOf (s : String) : Nat :=
  if s = "Spring" then 0
  else if s = "Summer" then 1
  else if s = "Fall" then 2
  else if s = "Winter" then 3
  else seasonsOrder.length

/-- `(int(x.split()[0]), seasons_order.index(x.split()[1]))`. -/
def ysKey (x : String) : Int × Nat :=
  (parseInt ((splitSpace x.data).headD []),
   seasonIndexOf (String.mk ((splitSpace x.data).getD 1 [])))

/-- Python tuple comparison on the sort key: year first, then the position
of the season in the fixed Spring, Summer, Fall, Winter cycle. -/
def ysLeb (a b : String) : Bool :=
  ((ysKey a).1 < (ysKey b).1) ||
  ((ysKey a).1 = (ysKey b).1 && (ysKey a).2 ≤ (ysKey b).2)

/-- `sorted(df_grouped['YearSeason'].unique(), key=...)`. -/
def sortedSeasons (labels : List String) : List String :=
  insertionSortLe ysLeb (dropDuplicates labels)

/-! ### `2 Transaction Type Analysis.py` cascading filter stage (lines 108-126)

```
selected_venue_type = multiselect(..., df["Venue Type"].unique())
if selected_venue_type:
    df_pay_type_filtered = df[df["Venue Type"].isin(selected_venue_type)]
    selected_pay_type = multiselect(..., df_pay_type_filtered["Pay Type"].unique())
else:
    selected_pay_type = multiselect(..., df["Pay Type"].unique())
if selected_pay_type:
    df_venue_name_filtered = df_pay_type_filtered[df_pay_type_filtered["Pay Type"].isin(selected_pay_type)]
    selected_venue_name = multiselect(..., df_venue_name_filtered["Venue Name"].unique())
else:
    selected_venue_name = multiselect(..., df["Venue Name"].unique())
if selected_venue_name:
    df_item_name_filtered = df_venue_name_filtered[df_venue_name_filtered["Venue Name"].isin(selected_venue_name)]
    selected_item_name = multiselect(..., df_item_name_filtered["Item Name"].unique())
else:
    selected_item_name = multiselect(..., df["Item Name"].unique())
```
`df_pay_type_filtered` and `df_venue_name_filtered` are only bound inside
the corresponding `if` branches; referencing them when the earlier
selection is empty raises a Python `NameError`, embedded here as
`Except.error`. -/

/-- `.unique()` of a categorical column, first occurrences first.  A null
cell would appear as its own value in pandas, but the column is non-null
after normalization, so the `filterMap` never drops a row. -/
def uniqueCol (get : RawRecord → Option String) (df : List RawRecord) :
    List String :=
  dropDuplicates (df.filterMap get)

/-- Candidate lists of the three dependent multiselect widgets: the Pay
Type, Venue Name and Item Name option lists, given the current selections
of the filters above each.  An `Except.error` is a `NameError` raised
while computing the widget options. -/
def transactionTypeCascade (df : List RawRecord)
    (selVT selPT selVN : List String) :
    Except String (List String × List String × List String) := do
  let ptOpts :=
    if selVT ≠ [] then
      uniqueCol (fun r => r.tbGlobalType) (df.filter (fun r => optIn r.vtName selVT))
    else uniqueCol (fun r => r.tbGlobalType) df
  let dfPayTypeFiltered : Option (List RawRecord) :=
    if selVT ≠ [] then some (df.filter (fun r => optIn r.vtName selVT)) else none
  let step ←
    if selPT ≠ [] then
      match dfPayTypeFiltered with
      | some d =>
          let dv := d.filter (fun r => optIn r.tbGlobalType selPT)
          pure (uniqueCol (fun r => r.vpVenueName) dv, some dv)
      | none => Except.error "NameError: name df_pay_type_filtered is not defined"
    else
      pure (uniqueCol (fun r => r.vpVenueName) df, (none : Option (List RawRecord)))
  let vnOpts := step.1
  let dfVenueNameFiltered := step.2
  let inOpts ←
    if selVN ≠ [] then
      match dfVenueNameFiltered with
      | some d =>
          pure (uniqueCol (fun r => r.tiItemName)
            (d.filter (fun r => optIn r.vpVenueName selVN)))
      | none => Except.error "NameError: name df_venue_name_filtered is not defined"
    else
      pure (uniqueCol (fun r => r.tiItemName) df)
  return (ptOpts, vnOpts, inOpts)

/-! ### Concrete records used to witness and refute claims -/

/-- A fully populated transaction: venue "A" of type "Pool", item "X",
5 of 10 stocked units sold on 2023-06-01. -/
def exRecA : RawRecord :=
  { vpVenueName := some "A", vtName := some "Pool", tbGlobalType := some "Card",
    efName := some "E", tiItemName := some "X", tbQty := 5, stock := 10,
    tbSubtotalAgree := 10, tbGuests := 2, tbCartId := "c1",
    tiCalDate := some ⟨2023, 6, 1⟩, tbTransDate := some ⟨2023, 6, 1⟩,
    addtierYieldAllItems := none, tierTierAllItems := none }

/-- Same sale with a zero stock level. -/
def exStockZero : RawRecord :=
  { exRecA with stock := 0 }

/-- `exRecA` with a null venue name. -/
def exNullVenue : RawRecord :=
  { exRecA with vpVenueName := none }

/-- `exRecA` with the literal venue name "Unknown". -/
def exUnknownVenue : RawRecord :=
  { exRecA with vpVenueName := some "Unknown" }

/-- A spring transaction (April 2023). -/
def exSpring : RawRecord :=
  { exRecA with tiCalDate := some ⟨2023, 4, 10⟩, tbCartId := "c2" }

/-- A fall transaction (October 2023). -/
def exFall : RawRecord :=
  { exRecA with tiCalDate := some ⟨2023, 10, 5⟩, tbCartId := "c3" }

/-- A second venue "B" of type "Bar" selling item "Y" by "Cash". -/
def exRecB : RawRecord :=
  { exRecA with
    vpVenueName := some "B"
    vtName := some "Bar"
    tbGlobalType := some "Cash"
    tiItemName := some "Y"
    tbCartId := "c4" }

/-! ## Lemmas about the embedded primitives -/

theorem mem_dropDupAux [DecidableEq α] (seen : List α) (l : List α) (a : α) :
    a ∈ dropDupAux seen l ↔ a ∈ l ∧ a ∉ seen := by
  induction l generalizing seen with
  | nil => simp [dropDupAux]
  | cons b t ih =>
    by_cases hb : b ∈ seen
    · simp only [dropDupAux, if_pos hb, ih]
      constructor
      · rintro ⟨hm, hs⟩; exact ⟨List.mem_cons_of_mem _ hm, hs⟩
      · rintro ⟨hm, hs⟩
        rcases List.mem_cons.mp hm with rfl | hm
        · exact absurd hb hs
        · exact ⟨hm, hs⟩
    · simp only [dropDupAux, if_neg hb, List.mem_cons, ih]
      constructor
      · rintro (rfl | ⟨hm, hs⟩)
        · exact ⟨Or.inl rfl, hb⟩
        · exact ⟨Or.inr hm, fun hx => hs (Or.inr hx)⟩
      · rintro ⟨hm, hs⟩
        rcases hm with rfl | hm
        · exact Or.inl rfl
        · by_cases hab : a = b
          · exact Or.inl hab
          · exact Or.inr ⟨hm, fun hx => hx.elim hab hs⟩

theorem mem_dropDuplicates [DecidableEq α] (l : List α) (a : α) :
    a ∈ dropDuplicates l ↔ a ∈ l := by
  simp [dropDuplicates, mem_dropDupAux]

theorem nodup_dropDupAux [DecidableEq α] (seen : List α) (l : List α) :
    (dropDupAux seen l).Nodup := by
  induction l generalizing seen with
  | nil => simp [dropDupAux]
  | cons b t ih =>
    by_cases hb : b ∈ seen
    · simpa [dropDupAux, if_pos hb] using ih seen
    · simp only [dropDupAux, if_neg hb, List.nodup_cons]
      refine ⟨fun hmem => ?_, ih (b :: seen)⟩
      exact ((mem_dropDupAux _ _ _).mp hmem).2 (List.mem_cons_self _ _)

theorem nodup_dropDuplicates [DecidableEq α] (l : List α) :
    (dropDuplicates l).Nodup :=
  nodup_dropDupAux [] l

theorem dropDupAux_eq_self [DecidableEq α] (seen : List α) (l : List α)
    (hnd : l.Nodup) (hdisj : ∀ a ∈ l, a ∉ seen) : dropDupAux seen l = l := by
  induction l generalizing seen with
  | nil => rfl
  | cons b t ih =>
    have hb : b ∉ seen := hdisj b (List.mem_cons_self _ _)
    have hnd' := List.nodup_cons.mp hnd
    simp only [dropDupAux, if_neg hb]
    congr 1
    refine ih (b :: seen) hnd'.2 fun a ha => ?_
    intro hx
    rcases List.mem_cons.mp hx with rfl | hx
    · exact hnd'.1 ha
    · exact hdisj a (List.mem_cons_of_mem _ ha) hx

theorem dropDuplicates_eq_self [DecidableEq α] (l : List α) (hnd : l.Nodup) :
    dropDuplicates l = l :=
  dropDupAux_eq_self [] l hnd (by simp)

theorem sum_map_add_distrib (u v : κ → ℚ) (ks : List κ) :
    (ks.map (fun k => u k + v k)).sum = (ks.map u).sum + (ks.map v).sum := by
  induction ks with
  | nil => simp
  | cons k t ih => simp [ih]; ring

theorem sum_map_ite_zero [DecidableEq κ] (ks : List κ) (c : κ) (x : ℚ)
    (hc : c ∉ ks) : (ks.map (fun k => if c = k then x else 0)).sum = 0 := by
  induction ks with
  | nil => simp
  | cons k t ih =>
    have hck : c ≠ k := fun h => hc (h ▸ List.mem_cons_self _ _)
    have hct : c ∉ t := fun h => hc (List.mem_cons_of_mem _ h)
    simp [hck, ih hct]

theorem sum_map_ite_single [DecidableEq κ] (ks : List κ) (c : κ) (x : ℚ)
    (hnd : ks.Nodup) (hc : c ∈ ks) :
    (ks.map (fun k => if c = k then x else 0)).sum = x := by
  induction ks with
  | nil => cases hc
  | cons k t ih =>
    have hnd' := List.nodup_cons.mp hnd
    by_cases hck : c = k
    · subst hck
      simp [sum_map_ite_zero t c x hnd'.1]
    · rcases List.mem_cons.mp hc with h | h
      · exact absurd h hck
      · simp [hck, ih hnd'.2 h]

/-- Partition lemma: summing a column group by group over any duplicate-free
key list that covers the rows recovers the whole-column sum. -/
theorem sum_filter_partition [DecidableEq κ] (key : α → κ) (f : α → ℚ)
    (l : List α) (ks : List κ) (hnd : ks.Nodup) (hcov : ∀ a ∈ l, key a ∈ ks) :
    (ks.map (fun k => sumBy f (l.filter (fun r => key r = k)))).sum = sumBy f l := by
  induction l with
  | nil => simp [sumBy, sum_map_ite_zero]
  | cons a t ih =>
    have hat : ∀ x ∈ t, key x ∈ ks := fun x hx => hcov x (List.mem_cons_of_mem _ hx)
    have hka : key a ∈ ks := hcov a (List.mem_cons_self _ _)
    have hstep : ∀ k : κ,
        sumBy f ((a :: t).filter (fun r => key r = k)) =
          (if key a = k then f a else 0) + sumBy f (t.filter (fun r => key r = k)) := by
      intro k
      by_cases h : key a = k
      · simp [List.filter_cons, h, sumBy]
      · simp [List.filter_cons, h, sumBy]
    calc (ks.map (fun k => sumBy f ((a :: t).filter (fun r => key r = k)))).sum
        = (ks.map (fun k => (if key a = k then f a else 0)
            + sumBy f (t.filter (fun r => key r = k)))).sum := by
          congr 1; exact List.map_congr_left fun k _ => hstep k
      _ = (ks.map (fun k => if key a = k then f a else 0)).sum
            + (ks.map (fun k => sumBy f (t.filter (fun r => key r = k)))).sum :=
          sum_map_add_distrib _ _ ks
      _ = f a + sumBy f t := by
          rw [sum_map_ite_single ks (key a) (f a) hnd hka, ih hat]
      _ = sumBy f (a :: t) := by simp [sumBy]

/-- Summing a column's per-group sums over all groups of a grouping equals
the whole-column sum over the grouped record set. -/
theorem sum_groupRows [DecidableEq κ] (key : α → κ) (f : α → ℚ) (l : List α) :
    ((groupRows key l).map (fun kg => sumBy f kg.2)).sum = sumBy f l := by
  unfold groupRows
  rw [List.map_map]
  exact sum_filter_partition key f l (dropDuplicates (l.map key))
    (nodup_dropDuplicates _)
    (fun a ha => (mem_dropDuplicates _ _).mpr (List.mem_map_of_mem key ha))

theorem mem_insertLe (le : α → α → Bool) (a x : α) (l : List α) :
    x ∈ insertLe le a l ↔ x = a ∨ x ∈ l := by
  induction l with
  | nil => simp [insertLe]
  | cons b t ih =>
    by_cases h : le a b
    · simp [insertLe, h, List.mem_cons]
    · simp only [insertLe, if_neg h, List.mem_cons, ih]
      tauto

theorem pairwise_insertLe (le : α → α → Bool)
    (htot : ∀ x y, le x y = true ∨ le y x = true)
    (htrans : ∀ x y z, le x y = true → le y z = true → le x z = true)
    (a : α) (l : List α) (hl : l.Pairwise (fun x y => le x y = true)) :
    (insertLe le a l).Pairwise (fun x y => le x y = true) := by
  induction l with
  | nil => simp [insertLe]
  | cons b t ih =>
    rcases List.pairwise_cons.mp hl with ⟨hb, ht⟩
    by_cases h : le a b
    · simp only [insertLe, if_pos h, List.pairwise_cons]
      refine ⟨fun x hx => ?_, ⟨hb, ht⟩⟩
      rcases List.mem_cons.mp hx with rfl | hx
      · exact h
      · exact htrans a b x h (hb x hx)
    · have hba : le b a = true := (htot a b).resolve_left h
      simp only [insertLe, if_neg h, List.pairwise_cons]
      refine ⟨fun x hx => ?_, ih ht⟩
      rcases (mem_insertLe le a x t).mp hx with rfl | hx
      · exact hba
      · exact hb x hx

theorem pairwise_insertionSortLe (le : α → α → Bool)
    (htot : ∀ x y, le x y = true ∨ le y x = true)
    (htrans : ∀ x y z, le x y = true → le y z = true → le x z = true)
    (l : List α) :
    (insertionSortLe le l).Pairwise (fun x y => le x y = true) := by
  induction l with
  | nil => simp [insertionSortLe]
  | cons a t ih => exact pairwise_insertLe le htot htrans a _ ih

theorem charsLeb_total (as bs : List Char) :
    charsLeb as bs = true ∨ charsLeb bs as = true := by
  induction as generalizing bs with
  | nil => left; rfl
  | cons a as ih =>
    cases bs with
    | nil => right; rfl
    | cons b bs =>
      by_cases h : a.toNat = b.toNat
      · rcases ih bs with h1 | h1
        · left; simp [charsLeb, h, h1]
        · right; simp [charsLeb, h.symm, h1]
      · rcases Nat.le_total a.toNat b.toNat with h1 | h1
        · left; simp [charsLeb, h, h1]
        · right
          have hba : ¬ b.toNat = a.toNat := fun hx => h hx.symm
          simp [charsLeb, hba, h1]

theorem charsLeb_trans (as bs cs : List Char)
    (h1 : charsLeb as bs = true) (h2 : charsLeb bs cs = true) :
    charsLeb as cs = true := by
  induction as generalizing bs cs with
  | nil => rfl
  | cons a as ih =>
    cases bs with
    | nil => simp [charsLeb] at h1
    | cons b bs =>
      cases cs with
      | nil => simp [charsLeb] at h2
      | cons c cs =>
        by_cases hab : a.toNat = b.toNat
        · by_cases hbc : b.toNat = c.toNat
          · have hac : a.toNat = c.toNat := hab.trans hbc
            simp only [charsLeb, if_pos hab] at h1
            simp only [charsLeb, if_pos hbc] at h2
            simp only [charsLeb, if_pos hac]
            exact ih bs cs h1 h2
          · have hac : ¬ a.toNat = c.toNat := fun hx => hbc (hab ▸ hx)
            simp only [charsLeb, if_neg hbc, decide_eq_true_eq] at h2
            simp only [charsLeb, if_neg hac, decide_eq_true_eq]
            omega
        · simp only [charsLeb, if_neg hab, decide_eq_true_eq] at h1
          by_cases hbc : b.toNat = c.toNat
          · have hac : ¬ a.toNat = c.toNat := fun hx => hab (hbc ▸ hx)
            simp only [charsLeb, if_neg hac, decide_eq_true_eq]
            omega
          · simp only [charsLeb, if_neg hbc, decide_eq_true_eq] at h2
            by_cases hac : a.toNat = c.toNat
            · omega
            · simp only [charsLeb, if_neg hac, decide_eq_true_eq]
              omega

theorem ysLeb_iff (a b : String) :
    ysLeb a b = true ↔
      ((ysKey a).1 < (ysKey b).1 ∨
        ((ysKey a).1 = (ysKey b).1 ∧ (ysKey a).2 ≤ (ysKey b).2)) := by
  simp [ysLeb, Bool.or_eq_true, Bool.and_eq_true, decide_eq_true_eq]

theorem ysLeb_total (a b : String) : ysLeb a b = true ∨ ysLeb b a = true := by
  rw [ysLeb_iff, ysLeb_iff]
  omega

theorem ysLeb_trans (a b c : String)
    (h1 : ysLeb a b = true) (h2 : ysLeb b c = true) : ysLeb a c = true := by
  rw [ysLeb_iff] at h1 h2 ⊢
  omega

/-! ## Normalizer lemmas -/

theorem fillUnknown_ne_none (o : Option String) : fillUnknown o ≠ none := by
  cases o <;> simp [fillUnknown]

theorem fillUnknown_fillUnknown (o : Option String) :
    fillUnknown (fillUnknown o) = fillUnknown o := by
  cases o <;> rfl

theorem applyFillna_applyFillna (r : RawRecord) :
    applyFillna (applyFillna r) = applyFillna r := by
  simp [applyFillna, fillUnknown_fillUnknown]

theorem hasDates_applyFillna (r : RawRecord) :
    hasDates (applyFillna r) = hasDates r := rfl

theorem mem_getDataframe_hasDates (rows : List RawRecord) (r : RawRecord)
    (hr : r ∈ getDataframe rows) : hasDates r = true := by
  rcases List.mem_map.mp hr with ⟨s, hs, rfl⟩
  rw [hasDates_applyFillna]
  exact List.of_mem_filter hs

/-! ## Claims -/

/-- C3: every record surviving normalization has non-null event and
transaction dates and non-null venue name, venue type, pay type, event name
and item name (nulls replaced by "Unknown"); these are the records every
later pipeline stage receives. -/
theorem normalized_records_non_null (rows : List RawRecord) (r : RawRecord)
    (hr : r ∈ getDataframe rows) :
    r.tiCalDate.isSome = true ∧ r.tbTransDate.isSome = true ∧
    r.vpVenueName ≠ none ∧ r.vtName ≠ none ∧ r.tbGlobalType ≠ none ∧
    r.efName ≠ none ∧ r.tiItemName ≠ none := by
  have hd := mem_getDataframe_hasDates rows r hr
  have hd12 : r.tiCalDate.isSome = true ∧ r.tbTransDate.isSome = true := by
    simpa [hasDates] using hd
  rcases List.mem_map.mp hr with ⟨s, _, rfl⟩
  exact ⟨hd12.1, hd12.2, fillUnknown_ne_none _, fillUnknown_ne_none _,
    fillUnknown_ne_none _, fillUnknown_ne_none _, fillUnknown_ne_none _⟩

theorem normalized_records_non_null_witness :
    exRecA.tiCalDate.isSome = true ∧ exRecA.tbTransDate.isSome = true ∧
    exRecA.vpVenueName ≠ none ∧ exRecA.vtName ≠ none ∧
    exRecA.tbGlobalType ≠ none ∧ exRecA.efName ≠ none ∧
    exRecA.tiItemName ≠ none :=
  normalized_records_non_null [exRecA] exRecA (by
    norm_num [getDataframe, dropDuplicates, dropDupAux, hasDates, applyFillna,
      fillUnknown, exRecA, List.filter])

/-- C9 counterexample: a row with a null venue name and an otherwise equal
row carrying the literal "Unknown" are distinct at dedup time but identical
after `fillna`; a second normalizer run removes the new duplicate, so the
output changes. -/
theorem normalizer_second_run_changes :
    getDataframe (getDataframe [exNullVenue, exUnknownVenue]) ≠
      getDataframe [exNullVenue, exUnknownVenue] := by
  norm_num [getDataframe, dropDuplicates, dropDupAux, hasDates, applyFillna,
    fillUnknown, exNullVenue, exUnknownVenue, exRecA, List.filter]

/-- C9 (amended): the normalizer is idempotent on every input whose
normalized output is free of duplicates, i.e. whenever the
`fillna('Unknown')` step does not collapse two previously distinct rows
into equal ones; on such inputs the second run removes no rows and changes
no values. -/
theorem normalizer_idempotent_of_nodup (rows : List RawRecord)
    (h : (getDataframe rows).Nodup) :
    getDataframe (getDataframe rows) = getDataframe rows := by
  have hdates : ∀ r ∈ getDataframe rows, hasDates r = true :=
    fun r hr => mem_getDataframe_hasDates rows r hr
  conv_lhs => rw [getDataframe]
  rw [dropDuplicates_eq_self _ h, List.filter_eq_self.mpr hdates]
  simp only [getDataframe, List.map_map]
  refine List.map_congr_left fun r _ => ?_
  simpa [Function.comp] using applyFillna_applyFillna r

theorem normalizer_idempotent_witness :
    (getDataframe [exRecA]).Nodup ∧
    getDataframe (getDataframe [exRecA]) = getDataframe [exRecA] := by
  have h : (getDataframe [exRecA]).Nodup := by
    norm_num [getDataframe, dropDuplicates, dropDupAux, hasDates, applyFillna,
      fillUnknown, exRecA, List.filter]
  exact ⟨h, normalizer_idempotent_of_nodup [exRecA] h⟩

/-- C7: for every record with a non-null event date (in a calendar month
1..12), the derived Season is Winter for December-February, Spring for
March-May, Summer for June-August and Fall for September-November. -/
theorem season_of_event_month (r : RawRecord) (d : DateV)
    (hd : r.tiCalDate = some d) (h1 : 1 ≤ d.month) (h2 : d.month ≤ 12) :
    seasonColumn r = some
      (if d.month = 12 ∨ d.month ≤ 2 then "Winter"
       else if d.month ≤ 5 then "Spring"
       else if d.month ≤ 8 then "Summer"
       else "Fall") := by
  rcases d with ⟨y, m, day⟩
  simp only [seasonColumn, hd]
  interval_cases m <;> simp [getSeason]

theorem season_of_event_month_witness :
    seasonColumn exRecA = some "Summer" := by
  have h := season_of_event_month exRecA ⟨2023, 6, 1⟩ rfl (by norm_num) (by norm_num)
  simpa using h

/-- C8: the Yielding flag is "yes" exactly when one of the two yield
indicator columns is non-null and strictly positive, and "no" otherwise. -/
theorem yielding_flag_iff (r : RawRecord) :
    (yieldingFlag r = "yes" ↔
      ((∃ v, r.addtierYieldAllItems = some v ∧ 0 < v) ∨
       (∃ v, r.tierTierAllItems = some v ∧ 0 < v))) ∧
    (yieldingFlag r = "no" ↔
      ¬ ((∃ v, r.addtierYieldAllItems = some v ∧ 0 < v) ∨
         (∃ v, r.tierTierAllItems = some v ∧ 0 < v))) := by
  cases ha : r.addtierYieldAllItems with
  | none =>
    cases ht : r.tierTierAllItems with
    | none => simp [yieldingFlag, posIndicator, ha, ht]
    | some w =>
      by_cases hw : 0 < w <;>
        simp [yieldingFlag, posIndicator, ha, ht, hw, not_lt.mp]
  | some v =>
    cases ht : r.tierTierAllItems with
    | none =>
      by_cases hv : 0 < v <;>
        simp [yieldingFlag, posIndicator, ha, ht, hv, not_lt.mp]
    | some w =>
      by_cases hv : 0 < v <;> by_cases hw : 0 < w <;>
        simp [yieldingFlag, posIndicator, ha, ht, hv, hw, not_lt.mp]

/-- C6: with no venue, event, item or yielding selection and no date range
the filter pass returns its input unchanged; and whenever filtering removes
every record, the page pass ends in the explicit no-data outcome (the
`df_grouped.empty` branch), never in a raised error — the pass is a total
function into `PageOutcome`. -/
theorem filter_identity_and_empty_result :
    (∀ (df : List RawRecord) (useEventDate : Bool),
      poolFiltered df [] [] [] [] useEventDate none = df) ∧
    (∀ (showAvg : Bool) (selVN selEF selTI selYld : List String)
        (useEventDate : Bool) (dateFilter : Option (DateV × DateV))
        (df : List RawRecord),
      poolFiltered df selVN selEF selTI selYld useEventDate dateFilter = [] →
      poolYieldPage showAvg selVN selEF selTI selYld useEventDate dateFilter df
        = PageOutcome.noData) := by
  constructor
  · intro df useEventDate
    simp [poolFiltered]
  · intro showAvg selVN selEF selTI selYld useEventDate dateFilter df hempty
    simp only [poolYieldPage, hempty]
    simp [poolYieldGrouped, groupRows, dropDuplicates, dropDupAux]

theorem filter_identity_and_empty_result_witness :
    poolFiltered [exRecA] [] [] [] [] true none = [exRecA] ∧
    poolYieldPage false ["B"] [] [] [] true none [exRecA] = PageOutcome.noData := by
  constructor
  · exact filter_identity_and_empty_result.1 [exRecA] true
  · refine filter_identity_and_empty_result.2 false ["B"] [] [] [] true none [exRecA] ?_
    decide

/-- C10: in the Transaction Type page's cascading filter stage, a Pay Type
selection with no Venue Type selection makes the widget computation
reference `df_pay_type_filtered`, which was never assigned, and a Venue
Name selection with no Pay Type selection likewise references the
unassigned `df_venue_name_filtered`; both fail with a `NameError` instead
of producing option lists. -/
theorem cascade_name_errors (df : List RawRecord) (selVT selPT selVN : List String) :
    (selPT ≠ [] →
      transactionTypeCascade df [] selPT selVN =
        Except.error "NameError: name df_pay_type_filtered is not defined") ∧
    (selVN ≠ [] →
      transactionTypeCascade df selVT [] selVN =
        Except.error "NameError: name df_venue_name_filtered is not defined") := by
  constructor
  · intro hPT
    simp [transactionTypeCascade, hPT, Bind.bind, Except.bind]
  · intro hVN
    by_cases hVT : selVT = [] <;>
      simp [transactionTypeCascade, hVN, hVT, Bind.bind, Except.bind, pure, Except.pure]

theorem cascade_name_errors_witness :
    transactionTypeCascade [exRecA] [] ["Card"] [] =
      Except.error "NameError: name df_pay_type_filtered is not defined" ∧
    transactionTypeCascade [exRecA] ["Pool"] [] ["A"] =
      Except.error "NameError: name df_venue_name_filtered is not defined" :=
  ⟨(cascade_name_errors [exRecA] [] ["Card"] []).1 (by simp),
   (cascade_name_errors [exRecA] ["Pool"] [] ["A"]).2 (by simp)⟩

/-- C4: for every record set, every selection-determined grouping and every
filter configuration, summing the per-group sums of Value, Quantity and
Guests over all groups of the aggregation recovers the sum of that column
over the filtered pre-grouping record set. -/
theorem grouped_sums_preserve_totals (showAvg : Bool)
    (selVN selEF selTI selYld : List String) (useEventDate : Bool)
    (dateFilter : Option (DateV × DateV)) (df : List RawRecord) :
    ((poolYieldGrouped showAvg selVN selEF selTI selYld
        (poolFiltered df selVN selEF selTI selYld useEventDate dateFilter)).map
      (fun row => row.valueSum)).sum =
      sumBy (fun r => r.tbSubtotalAgree)
        (poolFiltered df selVN selEF selTI selYld useEventDate dateFilter) ∧
    ((poolYieldGrouped showAvg selVN selEF selTI selYld
        (poolFiltered df selVN selEF selTI selYld useEventDate dateFilter)).map
      (fun row => row.quantitySum)).sum =
      sumBy (fun r => r.tbQty)
        (poolFiltered df selVN selEF selTI selYld useEventDate dateFilter) ∧
    ((poolYieldGrouped showAvg selVN selEF selTI selYld
        (poolFiltered df selVN selEF selTI selYld useEventDate dateFilter)).map
      (fun row => row.guestsSum)).sum =
      sumBy (fun r => r.tbGuests)
        (poolFiltered df selVN selEF selTI selYld useEventDate dateFilter) := by
  refine ⟨?_, ?_, ?_⟩ <;>
    simpa [poolYieldGrouped, List.map_map, Function.comp] using
      sum_groupRows (poolYieldKey selVN selEF selTI selYld) _
        (poolFiltered df selVN selEF selTI selYld useEventDate dateFilter)

/-- C1 counterexample: grouping a single sale of 5 units with stock level 0
produces a group whose max stock is 0 and whose percentage-sale is positive
infinity — not an undefined value — refuting the claim that a zero-stock
group's percentage-sale is never reported as infinity. -/
theorem percentage_sale_infinity_example :
    (dailyInventoryGrouped false [exStockZero]).map
        (fun row => (row.stockMax, row.percentageSale)) =
      [((0 : ℚ), PFloat.infPos)] := by
  norm_num [dailyInventoryGrouped, groupRows, dropDuplicates, dropDupAux,
    dailyKey, exStockZero, exRecA, sumBy, listMax, nuniqueBy, pandasDiv,
    pfMul100, pfRound2, List.filter]

/-- C1 (amended): in every inventory-style grouped result, a group with
max(stock) > 0 reports percentage-sale = round(100·sum(quantity)/max(stock), 2);
a group with max(stock) = 0 reports NaN (an undefined value, not 0) when
sum(quantity) = 0, but positive infinity when sum(quantity) > 0. -/
theorem percentage_sale_of_group (withEvent : Bool) (l : List RawRecord)
    (row : InventoryRow) (hrow : row ∈ dailyInventoryGrouped withEvent l) :
    (0 < row.stockMax →
      row.percentageSale = PFloat.val (round2 (100 * row.quantitySum / row.stockMax))) ∧
    (row.stockMax = 0 → row.quantitySum = 0 → row.percentageSale = PFloat.nan) ∧
    (row.stockMax = 0 → 0 < row.quantitySum → row.percentageSale = PFloat.infPos) := by
  rcases List.mem_map.mp hrow with ⟨kg, _, rfl⟩
  simp only
  refine ⟨fun hs => ?_, fun hs hq => ?_, fun hs hq => ?_⟩
  · have hs0 : listMax (kg.2.map (fun r => r.stock)) ≠ 0 := ne_of_gt hs
    simp only [pandasDiv, if_neg hs0, pfMul100, pfRound2]
    congr 1
    field_simp
    ring_nf
  · simp [pandasDiv, hs, hq, pfMul100, pfRound2]
  · have hq0 : sumBy (fun r => r.tbQty) kg.2 ≠ 0 := ne_of_gt hq
    simp [pandasDiv, hs, hq0, hq, pfMul100, pfRound2]

theorem percentage_sale_of_group_witness :
    0 < ((dailyInventoryGrouped false [exRecA]).headD default).stockMax ∧
    ((dailyInventoryGrouped false [exRecA]).headD default).percentageSale =
      PFloat.val (round2 (100 *
        ((dailyInventoryGrouped false [exRecA]).headD default).quantitySum /
        ((dailyInventoryGrouped false [exRecA]).headD default).stockMax)) := by
  have hmem : (dailyInventoryGrouped false [exRecA]).headD default ∈
      dailyInventoryGrouped false [exRecA] := by
    norm_num [dailyInventoryGrouped, groupRows, dropDuplicates, dropDupAux,
      dailyKey, exRecA, sumBy, listMax, nuniqueBy, pandasDiv, pfMul100,
      pfRound2, List.filter]
  have hpos : 0 < ((dailyInventoryGrouped false [exRecA]).headD default).stockMax := by
    norm_num [dailyInventoryGrouped, groupRows, dropDuplicates, dropDupAux,
      dailyKey, exRecA, sumBy, listMax, nuniqueBy, pandasDiv, pfMul100,
      pfRound2, List.filter]
  exact ⟨hpos,
    (percentage_sale_of_group false [exRecA] _ hmem).1 hpos⟩

/-- C2 counterexample: aggregating a spring (April 2023) and a fall
(October 2023) sale and applying the page's `sort_values(by="YearSeason")`
puts "2023 Fall" before "2023 Spring" — plain lexicographic string order —
while the claimed (year, Spring→Summer→Fall→Winter) order, as realized by
the `sorted_seasons` key of the day-of-week page, puts "2023 Spring" first. -/
theorem yearSeason_sort_lexicographic_example :
    (sortValuesYearSeason (seasonalGrouped false [] [] [] [exSpring, exFall])).map
        (fun row => row.yearSeason) = ["2023 Fall", "2023 Spring"] ∧
    sortedSeasons ["2023 Fall", "2023 Spring"] = ["2023 Spring", "2023 Fall"] :=
  ⟨rfl, rfl⟩

/-- C2 (amended): the grouped YearSeason output rows are ordered by plain
lexicographic string comparison of the `"{year} {season}"` label (so within
one year Fall < Spring < Summer < Winter); the (year ascending, season in
the fixed Spring→Summer→Fall→Winter cycle) ordering holds only for the
day-of-week page's chart-series label enumeration `sorted_seasons`. -/
theorem yearSeason_orderings (showAvg : Bool) (selVN selEF selTI : List String)
    (l : List RawRecord) (labels : List String) :
    (sortValuesYearSeason (seasonalGrouped showAvg selVN selEF selTI l)).Pairwise
      (fun a b => strLeb a.yearSeason b.yearSeason = true) ∧
    (sortedSeasons labels).Pairwise (fun a b =>
      (ysKey a).1 < (ysKey b).1 ∨
        ((ysKey a).1 = (ysKey b).1 ∧ (ysKey a).2 ≤ (ysKey b).2)) := by
  constructor
  · exact pairwise_insertionSortLe _
      (fun x y => charsLeb_total x.yearSeason.data y.yearSeason.data)
      (fun x y z => charsLeb_trans x.yearSeason.data y.yearSeason.data z.yearSeason.data)
      (seasonalGrouped showAvg selVN selEF selTI l)
  · have h := pairwise_insertionSortLe ysLeb ysLeb_total ysLeb_trans
      (dropDuplicates labels)
    exact h.imp (fun hab => (ysLeb_iff _ _).mp hab)

/-- C5 counterexample: with venue type "Pool" selected and no pay type
selected, the Venue Name widget offers ["A", "B"], computed from the full
unfiltered record set, although venue "B" has venue type "Bar" and the
record set narrowed by the selected venue type filter only offers ["A"]. -/
theorem cascade_candidates_from_full_set_example :
    transactionTypeCascade [exRecA, exRecB] ["Pool"] [] [] =
      Except.ok (["Card"], ["A", "B"], ["X", "Y"]) ∧
    uniqueCol (fun r => r.vpVenueName)
        (([exRecA, exRecB]).filter (fun r => optIn r.vtName ["Pool"])) = ["A"] :=
  ⟨rfl, rfl⟩

/-- C5 (amended): a later filter's candidate list is narrowed by the
earlier filters only when every earlier filter in the chain carries a
non-empty selection; when an earlier filter is unselected, the candidate
list is computed from the full unfiltered record set even if a still
earlier filter is selected. -/
theorem cascade_candidates (df : List RawRecord) (selVT selPT : List String) :
    (selVT ≠ [] → selPT ≠ [] →
      transactionTypeCascade df selVT selPT [] = Except.ok
        (uniqueCol (fun r => r.tbGlobalType)
           (df.filter (fun r => optIn r.vtName selVT)),
         uniqueCol (fun r => r.vpVenueName)
           ((df.filter (fun r => optIn r.vtName selVT)).filter
             (fun r => optIn r.tbGlobalType selPT)),
         uniqueCol (fun r => r.tiItemName) df)) ∧
    (selVT ≠ [] →
      transactionTypeCascade df selVT [] [] = Except.ok
        (uniqueCol (fun r => r.tbGlobalType)
           (df.filter (fun r => optIn r.vtName selVT)),
         uniqueCol (fun r => r.vpVenueName) df,
         uniqueCol (fun r => r.tiItemName) df)) := by
  constructor
  · intro hVT hPT
    simp [transactionTypeCascade, hVT, hPT, Bind.bind, Except.bind, pure,
      Except.pure]
  · intro hVT
    simp [transactionTypeCascade, hVT, Bind.bind, Except.bind, pure,
      Except.pure]

theorem cascade_candidates_witness :
    transactionTypeCascade [exRecA, exRecB] ["Pool"] ["Card"] [] =
      Except.ok (["Card"], ["A"], ["X", "Y"]) ∧
    transactionTypeCascade [exRecA, exRecB] ["Pool"] [] [] =
      Except.ok (["Card"], ["A", "B"], ["X", "Y"]) := by
  constructor
  · rw [(cascade_candidates [exRecA, exRecB] ["Pool"] ["Card"]).1
      (by simp) (by simp)]
    rfl
  · rw [(cascade_candidates [exRecA, exRecB] ["Pool"] ["Card"]).2 (by simp)]
    rfl

end Mgm
